import Mathlib

/-!
Verification of the contract-interpretation and artifact-generation core of the
dbt code generator (src/03_deliver/01_code_generator_service.py).

The development has two layers:

* a raw layer (`Yaml`, `extract_contract_info`): a shallow embedding of
  `extract_contract_info` over untyped YAML documents, where a Python attribute
  error (calling `.get`/`.items`/`.split` on a value of the wrong shape) is
  modelled as `Except.error ()`;
* a typed layer (`ContractInfo` and the generator functions): the generators
  `generate_schema_yml`, `generate_masking_policies_sql` and `generate_dmf_sql`
  consume the dictionary produced by `extract_contract_info`, whose keys and
  (for well-formed contracts) value types are fixed, so they are embedded over a
  typed record mirroring exactly the keys the extractor emits.  `Option`
  fields model presence/absence of a key where the code distinguishes the two
  via `dict.get` defaults.  The `datetime.now()` banner line is modelled by an
  explicit `now : String` parameter.

String primitives of Python (`str.lower`, `str.upper`, `str.split('.')`,
`in` on strings, `int` applied to the digit characters of a string) are
re-implemented on `List Char` so that all definitions reduce in the kernel.
-/

/-! ## Python string primitives -/

/-- A single-quote character as a one-character string (used to build the
emitted SQL literals). -/
def pyq : String := String.singleton (Char.ofNat 39)

/-- `in_chars needle hay`: `needle` occurs as a contiguous substring of `hay`
(Python's `needle in hay` on strings). -/
def in_chars (needle : List Char) : List Char → Bool
  | [] => needle.isEmpty
  | c :: cs => needle.isPrefixOf (c :: cs) || in_chars needle cs

/-- Python's substring test `needle in hay`. -/
def py_in (needle hay : String) : Bool := in_chars needle.data hay.data

/-- Python's `str.lower` (ASCII). -/
def py_lower (s : String) : String := String.mk (s.data.map Char.toLower)

/-- Python's `str.upper` (ASCII). -/
def py_upper (s : String) : String := String.mk (s.data.map Char.toUpper)

/-- Python's `int(''.join(filter(str.isdigit, s)))`: keep the digit characters
of `s` and read them as a decimal integer; `none` when there is no digit
(in which case `int('')` raises `ValueError`). -/
def py_int_digits (s : String) : Option Nat :=
  let ds := s.data.filter Char.isDigit
  if ds.isEmpty then none
  else some (ds.foldl (fun n c => n * 10 + (c.toNat - 48)) 0)

/-- Helper for `py_split_dot`: split a character list on `'.'`. -/
def splitDotAux : List Char → List Char → List String
  | [], acc => [String.mk acc.reverse]
  | c :: cs, acc =>
    if c = '.' then String.mk acc.reverse :: splitDotAux cs []
    else splitDotAux cs (c :: acc)

/-- Python's `s.split('.')` (always a nonempty list; `''` splits to `['']`). -/
def py_split_dot (s : String) : List String := splitDotAux s.data []

/-- `t.split('.')[-1]`: the last dot-separated segment of a string. -/
def last_dot_segment (s : String) : String := (py_split_dot s).getLastD ""

/-! ## Raw layer: untyped YAML documents and the extractor

`Yaml` models the values `yaml.safe_load` produces.  Mapping keys are
restricted to strings, which covers every access the program performs. -/

inductive Yaml where
  | null
  | bool (b : Bool)
  | int (n : Int)
  | str (s : String)
  | list (xs : List Yaml)
  | map (kvs : List (String × Yaml))

/-- Python's `v.get(k, d)`: defined on mappings only; on any other value the
attribute access raises (`Except.error`). -/
def pyGet (v : Yaml) (k : String) (d : Yaml) : Except Unit Yaml :=
  match v with
  | .map kvs => .ok ((List.lookup k kvs).getD d)
  | _ => .error ()

/-- Python's `v.items()`: defined on mappings only. -/
def pyItems (v : Yaml) : Except Unit (List (String × Yaml)) :=
  match v with
  | .map kvs => .ok kvs
  | _ => .error ()

/-- `exOk e` is `true` iff `e` succeeded. -/
def exOk {α : Type} : Except Unit α → Bool
  | .ok _ => true
  | .error _ => false

/-- A Python `for` loop that builds a list, aborting at the first raised
error. -/
def exList {α β : Type} (f : α → Except Unit β) : List α → Except Unit (List β)
  | [] => .ok []
  | x :: xs => do
    let y ← f x
    let ys ← exList f xs
    pure (y :: ys)

/-- One column record as built by `extract_contract_info` (lines 148-157 of
the source): exactly the keys `name`, `type`, `description`, `derivation`,
`required`, `pii`, `tags`, `masking_policy` — note the raw `constraints`
mapping itself is *not* carried over. -/
structure RawColumn where
  name : String
  type : Yaml
  description : Yaml
  derivation : Yaml
  required : Yaml
  pii : Yaml
  tags : Yaml
  masking_policy : Yaml

/-- The dictionary returned by `extract_contract_info` (lines 171-190). -/
structure RawInfo where
  name : Yaml
  version : Yaml
  title : Yaml
  description : Yaml
  owner : Yaml
  source_tables : List Yaml
  target_database : Yaml
  target_schema : Yaml
  target_table : Yaml
  materialization : Yaml
  columns : List RawColumn
  grain : Yaml
  primary_key : Yaml
  data_quality : Yaml
  business_rules : Yaml
  masking_policies : Yaml
  access_control : Yaml
  sla : Yaml

/-- Loop body of the column extraction (lines 147-157): every lookup with its
source default; `required` comes from `col_spec.get('constraints', {})
.get('required', False)` and `derivation` falls back to the legacy `source`
field. -/
def extract_column (kv : String × Yaml) : Except Unit RawColumn := do
  let col_spec := kv.2
  let ty ← pyGet col_spec "type" (.str "string")
  let desc ← pyGet col_spec "description" (.str "")
  let src ← pyGet col_spec "source" (.str "")
  let deriv ← pyGet col_spec "derivation" src
  let constraints ← pyGet col_spec "constraints" (.map [])
  let required ← pyGet constraints "required" (.bool false)
  let pii ← pyGet col_spec "pii" (.bool false)
  let tags ← pyGet col_spec "tags" (.list [])
  let mp ← pyGet col_spec "masking_policy" .null
  pure { name := kv.1, type := ty, description := desc, derivation := deriv,
         required := required, pii := pii, tags := tags, masking_policy := mp }

/-- Column extraction over `schema.get('properties', {})` (lines 145-157). -/
def extract_columns (properties : Yaml) : Except Unit (List RawColumn) := do
  let props ← pyItems properties
  exList extract_column props

/-- Wrapping of one legacy upstream-table string (line 167):
`{'name': t.split('.')[-1], 'location': t}`; a non-string raises because it
has no `split`. -/
def wrap_legacy (t : Yaml) : Except Unit Yaml :=
  match t with
  | .str s => .ok (.map [("name", .str (last_dot_segment s)), ("location", .str s)])
  | _ => .error ()

/-- Upstream-table normalization (lines 160-169): a non-list or empty list
yields `[]`; a list whose first element is a mapping is passed through as-is;
otherwise every element is wrapped as a legacy string. -/
def normalize_upstream (upstream : Yaml) : Except Unit (List Yaml) :=
  match upstream with
  | .list (t0 :: ts) =>
    match t0 with
    | .map m => .ok (.map m :: ts)
    | _ => exList wrap_legacy (t0 :: ts)
  | _ => .ok []

/-- `extract_contract_info` (lines 136-190), with every `dict.get` given its
source default and every attribute error surfaced as `Except.error`. -/
def extract_contract_info (contract : Yaml) : Except Unit RawInfo := do
  let metadata ← pyGet contract "metadata" (.map [])
  let spec ← pyGet contract "spec" (.map [])
  let source ← pyGet spec "source" (.map [])
  let destination ← pyGet spec "destination" (.map [])
  let schema ← pyGet spec "schema" (.map [])
  let properties ← pyGet schema "properties" (.map [])
  let columns ← extract_columns properties
  let upstream ← pyGet source "upstream_tables" (.list [])
  let source_tables ← normalize_upstream upstream
  let name ← pyGet metadata "name" (.str "unknown")
  let version ← pyGet metadata "version" (.str "1.0.0")
  let info ← pyGet spec "info" (.map [])
  let title ← pyGet info "title" (.str "")
  let description ← pyGet info "description" (.str "")
  let owner ← pyGet info "owner" (.map [])
  let target_database ← pyGet destination "database" (.str "")
  let target_schema ← pyGet destination "schema" (.str "")
  let target_table ← pyGet destination "table" (.str "")
  let materialization ← pyGet destination "materialization" (.str "table")
  let grain ← pyGet schema "grain" (.str "")
  let primary_key ← pyGet schema "primary_key" (.str "")
  let data_quality ← pyGet spec "data_quality" (.map [])
  let business_rules ← pyGet data_quality "business_rules" (.list [])
  let masking_policies ← pyGet spec "masking_policies" (.map [])
  let access_control ← pyGet spec "access_control" (.map [])
  let sla ← pyGet spec "sla" (.map [])
  pure { name := name, version := version, title := title,
         description := description, owner := owner,
         source_tables := source_tables,
         target_database := target_database, target_schema := target_schema,
         target_table := target_table, materialization := materialization,
         columns := columns, grain := grain, primary_key := primary_key,
         data_quality := data_quality, business_rules := business_rules,
         masking_policies := masking_policies, access_control := access_control,
         sla := sla }

/-- The fully-defaulted contract model: the result of extracting a mapping
document in which every lookup falls back to its default. -/
def default_contract_info : RawInfo :=
  { name := .str "unknown", version := .str "1.0.0", title := .str "",
    description := .str "", owner := .map [], source_tables := [],
    target_database := .str "", target_schema := .str "",
    target_table := .str "", materialization := .str "table",
    columns := [], grain := .str "", primary_key := .str "",
    data_quality := .map [], business_rules := .list [],
    masking_policies := .map [], access_control := .map [], sla := .map [] }

/-! ### Shape predicate under which extraction cannot fail -/

/-- `v` is a mapping. -/
def isMapOr (v : Yaml) : Bool :=
  match v with
  | .map _ => true
  | _ => false

/-- `v` is a string. -/
def isStrY (v : Yaml) : Bool :=
  match v with
  | .str _ => true
  | _ => false

/-- Python's `kvs.get(k, d)` restricted to an association list. -/
def lookupD (kvs : List (String × Yaml)) (k : String) (d : Yaml) : Yaml :=
  (List.lookup k kvs).getD d

/-- The `upstream_tables` value does not make extraction raise: any non-list
is silently replaced by `[]`; a list is fine when it is empty, when its first
element is a mapping (pass-through), or when all elements are strings. -/
def upstreamOk (u : Yaml) : Bool :=
  match u with
  | .list [] => true
  | .list (t0 :: ts) =>
    match t0 with
    | .map _ => true
    | .str _ => ts.all isStrY
    | _ => false
  | _ => true

/-- One `properties` entry does not make extraction raise: the column spec is
a mapping and its `constraints`, when present, is a mapping. -/
def colOk (c : Yaml) : Bool :=
  match c with
  | .map cs => isMapOr (lookupD cs "constraints" (.map []))
  | _ => false

/-- The `properties` value does not make extraction raise. -/
def propsOk (p : Yaml) : Bool :=
  match p with
  | .map ps => ps.all fun kv => colOk kv.2
  | _ => false

/-- The sections reached through `spec` have shapes on which every performed
lookup is defined. -/
def sectionsOk (sp : List (String × Yaml)) : Bool :=
  isMapOr (lookupD sp "info" (.map [])) &&
  isMapOr (lookupD sp "destination" (.map [])) &&
  isMapOr (lookupD sp "data_quality" (.map [])) &&
  (match lookupD sp "source" (.map []) with
   | .map sv => upstreamOk (lookupD sv "upstream_tables" (.list []))
   | _ => false) &&
  (match lookupD sp "schema" (.map []) with
   | .map sc => propsOk (lookupD sc "properties" (.map []))
   | _ => false)

/-- A document on which `extract_contract_info` performs no undefined
attribute access: a mapping whose present optional sections are themselves
mappings of the expected shape (all sections may be absent). -/
def wellShaped (doc : Yaml) : Bool :=
  match doc with
  | .map kvs =>
    isMapOr (lookupD kvs "metadata" (.map [])) &&
    (match lookupD kvs "spec" (.map []) with
     | .map sp => sectionsOk sp
     | _ => false)
  | _ => false

/-! ## Typed layer: the extracted contract model consumed by the generators

`ContractInfo` mirrors the dictionary built by `extract_contract_info` for a
well-formed contract, keeping exactly the fields the template generators
read.  `Option` marks keys whose presence the generators test via
`dict.get` defaults:

* `freshness_max_age` is `spec.data_quality.freshness.max_age`
  (`none` = the key, or an enclosing section, is absent);
* `access_roles` is `spec.access_control.authorized_roles`;
* each masking policy keeps `authorized_roles` as an `Option` because the
  generator's `policy_def.get('authorized_roles', fallback)` distinguishes an
  absent key from a present empty list;
* `completeness` and `monitoring_metrics` are
  `spec.data_quality.completeness` / `.monitoring.metrics` (absent = empty).
-/

structure Column where
  name : String
  type : String
  description : String
  derivation : String
  required : Bool
  pii : Bool
  tags : List String
  masking_policy : Option String
deriving DecidableEq

structure MaskingPolicy where
  authorized_roles : Option (List String)
  applies_to : Option String
  description : Option String
  behavior : Option String
  data_type : Option String
deriving DecidableEq

/-- One entry of `monitoring.metrics`: either a mapping with optional
`name`/`threshold` string values, or any non-mapping entry (skipped by the
generator's `isinstance(metric, dict)` test). -/
inductive MetricItem where
  | dict (name : Option String) (threshold : Option String)
  | other
deriving DecidableEq

structure ContractInfo where
  name : String
  version : String
  target_database : String
  target_schema : String
  target_table : String
  columns : List Column
  primary_key : String
  completeness : List (String × Int)
  freshness_max_age : Option String
  monitoring_metrics : List MetricItem
  masking_policies : List (String × MaskingPolicy)
  access_roles : Option (List String)
deriving DecidableEq

/-- `f"{db}.{schema}.{table}"` as used by both SQL generators. -/
def full_table_name (info : ContractInfo) : String :=
  info.target_database ++ "." ++ info.target_schema ++ "." ++ info.target_table

/-- The fixed `-- ====…` banner line (76 equals signs). -/
def eq_banner : String := "-- " ++ String.mk (List.replicate 76 (Char.ofNat 61))

/-! ### generate_schema_yml (lines 294-376): column tests

Only the structured content of the manifest is modelled (the final
`yaml.dump` rendering carries it verbatim). -/

/-- Test assignment of the `schema.yml` generator (lines 329-333): primary
key gets `unique` and `not_null`; otherwise a required column gets
`not_null`; otherwise no tests. -/
def column_tests_for (info : ContractInfo) (col : Column) : List String :=
  if col.name == info.primary_key then ["unique", "not_null"]
  else if col.required then ["not_null"]
  else []

/-- One column entry of the models section (lines 322-344); `tests = []`
models the omitted `tests` key and `tags = []` the omitted `tags` key. -/
structure ColDef where
  name : String
  description : String
  tests : List String
  tags : List String
deriving DecidableEq

/-- Loop body of lines 322-344. -/
def column_def (info : ContractInfo) (col : Column) : ColDef :=
  { name := col.name, description := col.description,
    tests := column_tests_for info col, tags := col.tags }

/-- The `columns` list of the emitted model entry. -/
def columns_yaml (info : ContractInfo) : List ColDef :=
  info.columns.map (column_def info)

/-! ### generate_masking_policies_sql (lines 379-446) -/

/-- Lines 402-403: `policy_def.get('authorized_roles',
contract_info.get('access_control', {}).get('authorized_roles', []))`.
The fallback fires only when the policy's key is absent. -/
def get_authorized_roles (policy_def : MaskingPolicy) (info : ContractInfo) :
    List String :=
  policy_def.authorized_roles.getD (info.access_roles.getD [])

/-- Line 406: `", ".join(f"'{role.upper()}'" for role in authorized_roles)`. -/
def roles_sql_of (roles : List String) : String :=
  String.intercalate ", " (roles.map fun role => pyq ++ py_upper role ++ pyq)

/-- Header of the masking-policy script (lines 386-398). -/
def masking_header_parts (now : String) (info : ContractInfo) : List String :=
  [eq_banner,
   "-- MASKING POLICIES: Generated from Data Contract",
   eq_banner,
   "-- Contract: " ++ info.name ++ " v" ++ info.version,
   "-- Generated: " ++ now,
   eq_banner,
   "",
   "USE ROLE ACCOUNTADMIN;",
   "USE DATABASE " ++ info.target_database ++ ";",
   "USE SCHEMA " ++ info.target_schema ++ ";",
   ""]

/-- Per-policy block (lines 400-444): documentation comment, policy body,
comment-on statement and, when `applies_to` is non-empty, the attachment
statement. -/
def policy_sql_lines (info : ContractInfo) (policy_name : String)
    (policy_def : MaskingPolicy) : List String :=
  let authorized_roles := get_authorized_roles policy_def info
  let roles_sql := roles_sql_of authorized_roles
  let applies_to := policy_def.applies_to.getD ""
  let description := policy_def.description.getD ""
  let data_type := policy_def.data_type.getD "STRING"
  [eq_banner,
   "-- MASKING POLICY: " ++ policy_name,
   eq_banner,
   "-- Applies to: " ++ applies_to,
   "-- Description: " ++ description,
   eq_banner,
   "",
   "CREATE OR REPLACE MASKING POLICY " ++ py_lower policy_name,
   "AS (val " ++ data_type ++ ")",
   "RETURNS " ++ data_type ++ " ->",
   "    CASE",
   "        -- Authorized roles can see full value",
   "        WHEN CURRENT_ROLE() IN (" ++ roles_sql ++ ") THEN val",
   "        -- All other roles see masked value",
   "        ELSE CONCAT(LEFT(val, 1), " ++ pyq ++ "****" ++ pyq ++ ")",
   "    END;",
   "",
   "COMMENT ON MASKING POLICY " ++ py_lower policy_name ++ " IS",
   pyq ++ description ++ ". Contract: " ++ info.name ++ " v" ++ info.version
     ++ pyq ++ ";",
   ""]
  ++ (if applies_to ≠ "" then
       ["-- Apply masking policy to column",
        "ALTER TABLE IF EXISTS " ++ full_table_name info,
        "    MODIFY COLUMN " ++ applies_to,
        "    SET MASKING POLICY " ++ py_lower policy_name ++ ";",
        ""]
      else [])

/-- All lines of the masking-policy script when at least one policy exists. -/
def masking_sql_parts (now : String) (info : ContractInfo) : List String :=
  masking_header_parts now info
    ++ info.masking_policies.flatMap fun np => policy_sql_lines info np.1 np.2

/-- `generate_masking_policies_sql`: single comment when no policies are
defined, otherwise the joined parts. -/
def generate_masking_policies_sql (now : String) (info : ContractInfo) : String :=
  if info.masking_policies.isEmpty then
    "-- No masking policies defined in contract"
  else String.intercalate "\n" (masking_sql_parts now info)

/-- Denotation of the fixed CASE body every policy receives
(`WHEN CURRENT_ROLE() IN (…) THEN val ELSE CONCAT(LEFT(val, 1), '****')`):
an authorized current role sees `val` unchanged, every other role sees the
first character of `val` followed by four asterisks. -/
def mask_case_value (authorized : List String) (current_role val : String) :
    String :=
  if authorized.contains current_role then val
  else String.mk (val.data.take 1) ++ "****"

/-! ### generate_dmf_sql (lines 449-640) -/

/-- `f"no_null_{col_name}".lower()` (line 498). -/
def expectation_name (col_name : String) : String :=
  py_lower ("no_null_" ++ col_name)

/-- Line 485: names of columns with `required: true`, in column order. -/
def base_required_columns (info : ContractInfo) : List String :=
  (info.columns.filter fun col => col.required).map Column.name

/-- Loop body of lines 488-490: append a completeness column when its
percentage is exactly 100 and it is not already collected. -/
def complete_step (acc : List String) (p : String × Int) : List String :=
  if p.2 == 100 && !(acc.contains p.1) then acc ++ [p.1] else acc

/-- The required-column list before the primary key is forced in. -/
def pre_pk_columns (info : ContractInfo) : List String :=
  info.completeness.foldl complete_step (base_required_columns info)

/-- Lines 485-495: required columns, 100%-completeness columns, and the
primary key inserted at the front when non-empty and not already present. -/
def required_columns (info : ContractInfo) : List String :=
  let rc := pre_pk_columns info
  if info.primary_key ≠ "" && !(rc.contains info.primary_key) then
    info.primary_key :: rc
  else rc

/-- One NULL_COUNT expectation block (lines 499-505). -/
def null_count_lines (ft : String) (col_name : String) : List String :=
  ["ALTER TABLE " ++ ft,
   "    ADD DATA METRIC FUNCTION SNOWFLAKE.CORE.NULL_COUNT",
   "    ON (" ++ col_name ++ ")",
   "    EXPECTATION " ++ expectation_name col_name ++ " (VALUE = 0);",
   ""]

/-- The tag set of line 528. -/
def dimension_tags : List String :=
  ["classification", "segment", "tier", "risk_tier", "geography"]

/-- `str(col.get('constraints', {}))` (line 530): the column record built by
`extract_contract_info` carries no `constraints` key (see `RawColumn`), so
this `get` always returns `{}` and its `str` is the two-character brace
string. -/
def constraints_str (_col : Column) : String :=
  String.mk [Char.ofNat 123, Char.ofNat 125]

/-- Lines 523-531: dimension columns tracked for cardinality — tags
intersecting `dimension_tags`, or `'enum'` occurring in the stringified
`constraints` value (which, the records having no such key, never fires). -/
def dimension_columns (info : ContractInfo) : List String :=
  info.columns.foldl
    (fun acc col =>
      if dimension_tags.any (fun tag => col.tags.contains tag) then
        acc ++ [col.name]
      else if py_in "enum" (constraints_str col) then acc ++ [col.name]
      else acc)
    []

/-- Lines 551-554: columns eligible to carry the freshness expectation. -/
def timestamp_cols (info : ContractInfo) : List String :=
  (info.columns.filter fun col =>
      ["timestamp", "timestamp_ntz", "timestamp_ltz"].contains col.type
        || col.tags.contains "timestamp"
        || py_in "calculated_at" (py_lower col.name)).map Column.name

/-- Line 557: `freshness_config.get('max_age', '25 hours')`. -/
def max_age_of (info : ContractInfo) : String :=
  info.freshness_max_age.getD "25 hours"

/-- Lines 560-567: hours × 3600 when the text mentions `hour`
(case-insensitively) and its digits parse; 86400 on any parse failure or
non-hour unit. -/
def max_seconds_of (max_age : String) : Nat :=
  if py_in "hour" (py_lower max_age) then
    match py_int_digits max_age with
    | some hours => hours * 3600
    | none => 86400
  else 86400

/-- The freshness threshold the generator computes for a contract. -/
def dmf_max_seconds (info : ContractInfo) : Nat :=
  max_seconds_of (max_age_of info)

/-- Loop body of lines 590-596: a mapping entry named `row_count` overrides
the threshold with the integer read from the digits of its threshold text;
any failure (`except: pass`) keeps the previous value; other entries are
skipped. -/
def row_count_step (acc : Nat) (m : MetricItem) : Nat :=
  match m with
  | .dict nm threshold =>
    if nm == some "row_count" then
      match py_int_digits (threshold.getD "") with
      | some n => n
      | none => acc
    else acc
  | .other => acc

/-- Lines 586-596: row-count threshold, default 500. -/
def row_threshold_of (metrics : List MetricItem) : Nat :=
  metrics.foldl row_count_step 500

/-- Header and Part 1 of the quality script (lines 454-474). -/
def dmf_header_parts (now : String) (info : ContractInfo) : List String :=
  [eq_banner,
   "-- DATA METRIC FUNCTIONS: Generated from Data Contract",
   eq_banner,
   "-- Contract: " ++ info.name ++ " v" ++ info.version,
   "-- Generated: " ++ now,
   "-- Template-based generation from contract quality rules",
   eq_banner,
   "",
   "USE ROLE ACCOUNTADMIN;",
   "USE DATABASE " ++ info.target_database ++ ";",
   "USE SCHEMA " ++ info.target_schema ++ ";",
   "",
   eq_banner,
   "-- PART 1: SET DMF SCHEDULE",
   eq_banner,
   "",
   "ALTER TABLE " ++ full_table_name info,
   "    SET DATA_METRIC_SCHEDULE = " ++ pyq ++ "USING CRON 0,30 * * * * UTC"
     ++ pyq ++ ";",
   ""]

/-- Part 2 (lines 477-505): completeness intro plus one NULL_COUNT block per
required column. -/
def dmf_completeness_parts (info : ContractInfo) : List String :=
  [eq_banner,
   "-- PART 2: COMPLETENESS CHECKS (NULL_COUNT)",
   eq_banner,
   "-- Columns with required: true in contract must not have nulls",
   ""]
  ++ (required_columns info).flatMap (null_count_lines (full_table_name info))

/-- Part 3 (lines 508-520): DUPLICATE_COUNT on the primary key when
non-empty. -/
def dmf_uniqueness_parts (info : ContractInfo) : List String :=
  if info.primary_key ≠ "" then
    [eq_banner,
     "-- PART 3: UNIQUENESS CHECK (DUPLICATE_COUNT)",
     eq_banner,
     "-- Primary key (" ++ info.primary_key ++ ") must be unique per contract",
     "",
     "ALTER TABLE " ++ full_table_name info,
     "    ADD DATA METRIC FUNCTION SNOWFLAKE.CORE.DUPLICATE_COUNT",
     "    ON (" ++ info.primary_key ++ ")",
     "    EXPECTATION no_duplicate_" ++ py_lower info.primary_key
       ++ " (VALUE = 0);",
     ""]
  else []

/-- Part 4 (lines 533-547): UNIQUE_COUNT per dimension column; the whole
section is absent when no dimension column is collected. -/
def dmf_cardinality_parts (info : ContractInfo) : List String :=
  let dims := dimension_columns info
  if dims ≠ [] then
    [eq_banner,
     "-- PART 4: CARDINALITY TRACKING (UNIQUE_COUNT)",
     eq_banner,
     "-- Track distinct values for key dimensions (informational)",
     ""]
    ++ dims.flatMap (fun col_name =>
        ["ALTER TABLE " ++ full_table_name info,
         "    ADD DATA METRIC FUNCTION SNOWFLAKE.CORE.UNIQUE_COUNT",
         "    ON (" ++ col_name ++ ");",
         ""])
  else []

/-- Part 5 (lines 569-582): FRESHNESS on the first timestamp column, when one
exists. -/
def dmf_freshness_parts (info : ContractInfo) : List String :=
  let max_age := max_age_of info
  let max_seconds := max_seconds_of max_age
  match timestamp_cols info with
  | ts_col :: _ =>
    [eq_banner,
     "-- PART 5: FRESHNESS SLA",
     eq_banner,
     "-- Contract SLA: " ++ max_age ++ " (max " ++ toString max_seconds
       ++ " seconds)",
     "",
     "ALTER TABLE " ++ full_table_name info,
     "    ADD DATA METRIC FUNCTION SNOWFLAKE.CORE.FRESHNESS",
     "    ON (" ++ ts_col ++ ")",
     "    EXPECTATION freshness_sla (VALUE <= " ++ toString max_seconds
       ++ ");",
     ""]
  | [] => []

/-- Part 6 (lines 598-609): the ROW_COUNT expectation, always emitted. -/
def dmf_rowcount_parts (info : ContractInfo) : List String :=
  let row_threshold := row_threshold_of info.monitoring_metrics
  [eq_banner,
   "-- PART 6: ROW COUNT THRESHOLD",
   eq_banner,
   "-- Minimum expected rows: " ++ toString row_threshold,
   "",
   "ALTER TABLE " ++ full_table_name info,
   "    ADD DATA METRIC FUNCTION SNOWFLAKE.CORE.ROW_COUNT",
   "    ON ()",
   "    EXPECTATION min_row_count (VALUE >= " ++ toString row_threshold
     ++ ");",
   ""]

/-- Part 7 (lines 612-638): fixed verification queries. -/
def dmf_verification_parts (info : ContractInfo) : List String :=
  [eq_banner,
   "-- PART 7: VERIFY DMF CONFIGURATION",
   eq_banner,
   "",
   "-- View all DMFs applied",
   "SELECT",
   "    metric_name,",
   "    ref_arguments AS columns,",
   "    schedule,",
   "    schedule_status",
   "FROM TABLE(",
   "    INFORMATION_SCHEMA.DATA_METRIC_FUNCTION_REFERENCES(",
   "        REF_ENTITY_NAME => " ++ pyq ++ full_table_name info ++ pyq ++ ",",
   "        REF_ENTITY_DOMAIN => " ++ pyq ++ "TABLE" ++ pyq,
   "    )",
   ")",
   "ORDER BY metric_name;",
   "",
   "-- Run initial quality check",
   "SELECT * FROM TABLE(SYSTEM$EVALUATE_DATA_QUALITY_EXPECTATIONS(",
   "    REF_ENTITY_NAME => " ++ pyq ++ full_table_name info ++ pyq ++ "));",
   "",
   eq_banner,
   "-- SETUP COMPLETE",
   eq_banner]

/-- All lines of the quality-rule script, in source order. -/
def dmf_sql_parts (now : String) (info : ContractInfo) : List String :=
  dmf_header_parts now info
    ++ dmf_completeness_parts info
    ++ dmf_uniqueness_parts info
    ++ dmf_cardinality_parts info
    ++ dmf_freshness_parts info
    ++ dmf_rowcount_parts info
    ++ dmf_verification_parts info

/-- `generate_dmf_sql`. -/
def generate_dmf_sql (now : String) (info : ContractInfo) : String :=
  String.intercalate "\n" (dmf_sql_parts now info)

/-! ## Helper lemmas -/

theorem exOk_iff {α : Type} (e : Except Unit α) :
    exOk e = true ↔ ∃ v, e = .ok v := by
  cases e <;> simp [exOk]

theorem except_ok_bind {α β : Type} (v : α) (f : α → Except Unit β) :
    (Except.ok v >>= f : Except Unit β) = f v := rfl

theorem exList_ok {α β : Type} (f : α → Except Unit β) (xs : List α)
    (h : ∀ x ∈ xs, exOk (f x) = true) : exOk (exList f xs) = true := by
  induction xs with
  | nil => rfl
  | cons x xs ih =>
    obtain ⟨y, hy⟩ := (exOk_iff (f x)).1 (h x (List.mem_cons_self x xs))
    obtain ⟨ys, hys⟩ :=
      (exOk_iff _).1 (ih fun z hz => h z (List.mem_cons_of_mem x hz))
    simp [exList, hy, hys, except_ok_bind, exOk]

theorem isMapOr_map {v : Yaml} (h : isMapOr v = true) : ∃ m, v = .map m := by
  cases v <;> first | exact ⟨_, rfl⟩ | simp [isMapOr] at h

theorem extract_column_ok (n : String) (c : Yaml) (h : colOk c = true) :
    exOk (extract_column (n, c)) = true := by
  cases c with
  | map cs =>
    simp only [colOk] at h
    obtain ⟨cc, hcc⟩ := isMapOr_map h
    simp only [lookupD] at hcc
    simp [extract_column, pyGet, hcc, except_ok_bind, exOk]
  | null => simp [colOk] at h
  | bool b => simp [colOk] at h
  | int i => simp [colOk] at h
  | str s => simp [colOk] at h
  | list xs => simp [colOk] at h

theorem extract_columns_ok (p : Yaml) (h : propsOk p = true) :
    exOk (extract_columns p) = true := by
  cases p with
  | map ps =>
    simp only [propsOk, List.all_eq_true] at h
    exact exList_ok _ _ fun kv hkv => extract_column_ok kv.1 kv.2 (h kv hkv)
  | null => simp [propsOk] at h
  | bool b => simp [propsOk] at h
  | int i => simp [propsOk] at h
  | str s => simp [propsOk] at h
  | list xs => simp [propsOk] at h

theorem wrap_legacy_ok (t : Yaml) (h : isStrY t = true) :
    exOk (wrap_legacy t) = true := by
  cases t <;> first | rfl | simp [isStrY] at h

theorem normalize_upstream_ok (u : Yaml) (h : upstreamOk u = true) :
    exOk (normalize_upstream u) = true := by
  cases u with
  | list xs =>
    cases xs with
    | nil => rfl
    | cons t0 ts =>
      cases t0 with
      | map m => rfl
      | str s =>
        simp only [upstreamOk, List.all_eq_true] at h
        exact exList_ok _ _ fun x hx => by
          rcases List.mem_cons.1 hx with h1 | h2
          · subst h1; rfl
          · exact wrap_legacy_ok x (h x h2)
      | null => simp [upstreamOk] at h
      | bool b => simp [upstreamOk] at h
      | int i => simp [upstreamOk] at h
      | list ys => simp [upstreamOk] at h
  | null => rfl
  | bool b => rfl
  | int i => rfl
  | str s => rfl
  | map kvs => rfl

theorem wellShaped_extract_ok (doc : Yaml) (h : wellShaped doc = true) :
    exOk (extract_contract_info doc) = true := by
  cases doc with
  | map kvs =>
    simp only [wellShaped, Bool.and_eq_true] at h
    obtain ⟨hmeta, hspec⟩ := h
    obtain ⟨md, hmd⟩ := isMapOr_map hmeta
    rcases hsp : lookupD kvs "spec" (.map []) with _ | _ | _ | _ | _ | sp
      <;> rw [hsp] at hspec <;> try simp at hspec
    simp only [sectionsOk, Bool.and_eq_true] at hspec
    obtain ⟨⟨⟨⟨hinfo, hdest⟩, hdq⟩, hsrc⟩, hschema⟩ := hspec
    obtain ⟨iv, hiv⟩ := isMapOr_map hinfo
    obtain ⟨dv, hdv⟩ := isMapOr_map hdest
    obtain ⟨dq, hdq'⟩ := isMapOr_map hdq
    rcases hsv : lookupD sp "source" (.map []) with _ | _ | _ | _ | _ | sv
      <;> rw [hsv] at hsrc <;> try simp at hsrc
    rcases hsc : lookupD sp "schema" (.map []) with _ | _ | _ | _ | _ | sc
      <;> rw [hsc] at hschema <;> try simp at hschema
    obtain ⟨cols, hcols⟩ := (exOk_iff _).1 (extract_columns_ok _ hschema)
    obtain ⟨stables, hst⟩ := (exOk_iff _).1 (normalize_upstream_ok _ hsrc)
    simp only [lookupD] at hmd hsp hiv hdv hdq' hsv hsc hcols hst
    simp [extract_contract_info, pyGet, hmd, hsp, hiv, hdv, hdq', hsv, hsc,
      hcols, hst, except_ok_bind, exOk]
  | null => simp [wellShaped] at h
  | bool b => simp [wellShaped] at h
  | int i => simp [wellShaped] at h
  | str s => simp [wellShaped] at h
  | list xs => simp [wellShaped] at h

theorem extract_defaults (kvs : List (String × Yaml))
    (h1 : List.lookup "metadata" kvs = none)
    (h2 : List.lookup "spec" kvs = none) :
    extract_contract_info (.map kvs) = .ok default_contract_info := by
  simp [extract_contract_info, pyGet, h1, h2, except_ok_bind,
    default_contract_info, extract_columns, pyItems, exList,
    normalize_upstream]

theorem complete_fold_mem_mono (ps : List (String × Int)) (acc : List String)
    (a : String) (h : a ∈ acc) : a ∈ ps.foldl complete_step acc := by
  induction ps generalizing acc with
  | nil => exact h
  | cons p ps ih =>
    apply ih
    simp only [complete_step]
    split
    · exact List.mem_append_left _ h
    · exact h

theorem complete_fold_mem_of_entry (ps : List (String × Int))
    (acc : List String) (a : String) (h : (a, (100 : Int)) ∈ ps) :
    a ∈ ps.foldl complete_step acc := by
  induction ps generalizing acc with
  | nil => simp at h
  | cons p ps ih =>
    rcases List.mem_cons.1 h with h1 | h2
    · subst h1
      rw [List.foldl_cons]
      apply complete_fold_mem_mono
      simp only [complete_step]
      by_cases hc : List.contains acc a
      · have hmem : a ∈ acc := by simpa using hc
        simp [hc, hmem]
      · have hnot : a ∉ acc := by simpa using hc
        simp [hc, hnot]
    · exact ih _ h2

theorem complete_fold_mem_inv (ps : List (String × Int)) (acc : List String)
    (a : String) (h : a ∈ ps.foldl complete_step acc) :
    a ∈ acc ∨ ∃ pr ∈ ps, pr.1 = a ∧ pr.2 = 100 := by
  induction ps generalizing acc with
  | nil => exact Or.inl h
  | cons p ps ih =>
    rcases ih (complete_step acc p) h with h1 | h2
    · simp only [complete_step] at h1
      by_cases hcond : (p.2 == (100 : Int) && !acc.contains p.1) = true
      · rw [if_pos hcond] at h1
        rcases List.mem_append.1 h1 with ha | hb
        · exact Or.inl ha
        · have hp2 : p.2 = 100 := by
            have h2 := hcond
            simp only [Bool.and_eq_true] at h2
            exact beq_iff_eq.1 h2.1
          have hp1 : p.1 = a := (List.mem_singleton.1 hb).symm
          exact Or.inr ⟨p, List.mem_cons_self _ _, hp1, hp2⟩
      · rw [if_neg hcond] at h1
        exact Or.inl h1
    · obtain ⟨pr, hpr, hh⟩ := h2
      exact Or.inr ⟨pr, List.mem_cons_of_mem _ hpr, hh⟩

theorem complete_fold_nodup (ps : List (String × Int)) (acc : List String)
    (h : acc.Nodup) : (ps.foldl complete_step acc).Nodup := by
  induction ps generalizing acc with
  | nil => exact h
  | cons p ps ih =>
    apply ih
    simp only [complete_step]
    split
    next hcond =>
      have hnm : p.1 ∉ acc := by
        have h2 := hcond
        simp only [Bool.and_eq_true] at h2
        simpa using h2.2
      simp [List.nodup_append, h, hnm]
    next => exact h

theorem base_required_nodup (info : ContractInfo)
    (h : (info.columns.map Column.name).Nodup) :
    (base_required_columns info).Nodup := by
  have hs : ((info.columns.filter fun col => col.required).map Column.name).Sublist
      (info.columns.map Column.name) :=
    (List.filter_sublist _).map Column.name
  exact hs.nodup h

theorem base_required_mem (info : ContractInfo) (c : String) :
    c ∈ base_required_columns info ↔
      ∃ col ∈ info.columns, col.required = true ∧ col.name = c := by
  simp only [base_required_columns, List.mem_map, List.mem_filter]
  constructor
  · rintro ⟨col, ⟨hmem, hreq⟩, hname⟩
    exact ⟨col, hmem, hreq, hname⟩
  · rintro ⟨col, hmem, hreq, hname⟩
    exact ⟨col, ⟨hmem, hreq⟩, hname⟩

theorem pre_pk_mem (info : ContractInfo) (c : String) :
    c ∈ pre_pk_columns info ↔
      (∃ col ∈ info.columns, col.required = true ∧ col.name = c)
        ∨ (c, (100 : Int)) ∈ info.completeness := by
  constructor
  · intro h
    rcases complete_fold_mem_inv _ _ _ h with h1 | ⟨pr, hpr, h1, h2⟩
    · exact Or.inl ((base_required_mem info c).1 h1)
    · refine Or.inr ?_
      have hpr' : pr = (c, (100 : Int)) := by
        obtain ⟨x, y⟩ := pr
        simp only at h1 h2
        rw [h1, h2]
      exact hpr' ▸ hpr
  · rintro (h1 | h2)
    · exact complete_fold_mem_mono _ _ _ ((base_required_mem info c).2 h1)
    · exact complete_fold_mem_of_entry _ _ _ h2

theorem pre_pk_of_cond_false (info : ContractInfo) (hpk : info.primary_key ≠ "")
    (hcond : ¬((info.primary_key ≠ ""
        && !(pre_pk_columns info).contains info.primary_key) = true)) :
    info.primary_key ∈ pre_pk_columns info := by
  simp only [Bool.and_eq_true, not_and, decide_eq_true_eq] at hcond
  have := hcond (by simpa using hpk)
  simpa using this

theorem required_columns_mem (info : ContractInfo) (hpk : info.primary_key ≠ "")
    (c : String) :
    c ∈ required_columns info ↔
      (∃ col ∈ info.columns, col.required = true ∧ col.name = c)
        ∨ (c, (100 : Int)) ∈ info.completeness
        ∨ c = info.primary_key := by
  have hbase := pre_pk_mem info c
  simp only [required_columns]
  split
  next hcond =>
    rw [List.mem_cons]
    constructor
    · rintro (rfl | h)
      · exact Or.inr (Or.inr rfl)
      · rcases hbase.1 h with h1 | h2
        · exact Or.inl h1
        · exact Or.inr (Or.inl h2)
    · rintro (h1 | h2 | rfl)
      · exact Or.inr (hbase.2 (Or.inl h1))
      · exact Or.inr (hbase.2 (Or.inr h2))
      · exact Or.inl rfl
  next hcond =>
    have hin : info.primary_key ∈ pre_pk_columns info :=
      pre_pk_of_cond_false info hpk hcond
    constructor
    · intro h
      rcases hbase.1 h with h1 | h2
      · exact Or.inl h1
      · exact Or.inr (Or.inl h2)
    · rintro (h1 | h2 | rfl)
      · exact hbase.2 (Or.inl h1)
      · exact hbase.2 (Or.inr h2)
      · exact hin

theorem required_columns_nodup (info : ContractInfo)
    (h : (info.columns.map Column.name).Nodup) :
    (required_columns info).Nodup := by
  have hp : (pre_pk_columns info).Nodup :=
    complete_fold_nodup _ _ (base_required_nodup info h)
  simp only [required_columns]
  split
  next hcond =>
    have hnot : info.primary_key ∉ pre_pk_columns info := by
      simp only [Bool.and_eq_true] at hcond
      simpa using hcond.2
    exact List.nodup_cons.mpr ⟨hnot, hp⟩
  next => exact hp

theorem required_columns_pk_mem (info : ContractInfo)
    (hpk : info.primary_key ≠ "") :
    info.primary_key ∈ required_columns info := by
  simp only [required_columns]
  split
  next => exact List.mem_cons_self _ _
  next hcond => exact pre_pk_of_cond_false info hpk hcond

theorem required_columns_head (info : ContractInfo)
    (hpk : info.primary_key ≠ "")
    (hnot : info.primary_key ∉ pre_pk_columns info) :
    (required_columns info).head? = some info.primary_key := by
  simp only [required_columns]
  rw [if_pos]
  · rfl
  · simp [hpk, hnot]

theorem null_count_line_mem (now : String) (info : ContractInfo) (c : String)
    (h : c ∈ required_columns info) :
    ("    EXPECTATION " ++ expectation_name c ++ " (VALUE = 0);")
      ∈ dmf_sql_parts now info := by
  have hmem : ("    EXPECTATION " ++ expectation_name c ++ " (VALUE = 0);")
      ∈ dmf_completeness_parts info := by
    simp only [dmf_completeness_parts]
    refine List.mem_append_right _ ?_
    exact List.mem_flatMap.mpr ⟨c, h, by simp [null_count_lines]⟩
  simp only [dmf_sql_parts, List.mem_append]
  tauto

theorem rowcount_line_mem (now : String) (info : ContractInfo) :
    ("    EXPECTATION min_row_count (VALUE >= "
        ++ toString (row_threshold_of info.monitoring_metrics) ++ ");")
      ∈ dmf_sql_parts now info := by
  have hmem : ("    EXPECTATION min_row_count (VALUE >= "
      ++ toString (row_threshold_of info.monitoring_metrics) ++ ");")
      ∈ dmf_rowcount_parts info := by
    simp [dmf_rowcount_parts]
  simp only [dmf_sql_parts, List.mem_append]
  tauto

theorem freshness_line_mem (now : String) (info : ContractInfo)
    (hts : timestamp_cols info ≠ []) :
    ("    EXPECTATION freshness_sla (VALUE <= "
        ++ toString (dmf_max_seconds info) ++ ");")
      ∈ dmf_sql_parts now info := by
  obtain ⟨t, ts, hcols⟩ := List.exists_cons_of_ne_nil hts
  have hmem : ("    EXPECTATION freshness_sla (VALUE <= "
      ++ toString (dmf_max_seconds info) ++ ");")
      ∈ dmf_freshness_parts info := by
    simp only [dmf_freshness_parts, hcols]
    simp [dmf_max_seconds]
  simp only [dmf_sql_parts, List.mem_append]
  tauto

theorem masking_when_line_mem (now : String) (info : ContractInfo)
    (policy_name : String) (policy_def : MaskingPolicy)
    (h : (policy_name, policy_def) ∈ info.masking_policies) :
    ("        WHEN CURRENT_ROLE() IN ("
        ++ roles_sql_of (get_authorized_roles policy_def info) ++ ") THEN val")
      ∈ masking_sql_parts now info := by
  simp only [masking_sql_parts, List.mem_append]
  refine Or.inr (List.mem_flatMap.mpr ⟨(policy_name, policy_def), h, ?_⟩)
  simp [policy_sql_lines]

theorem masking_else_line_mem (now : String) (info : ContractInfo)
    (policy_name : String) (policy_def : MaskingPolicy)
    (h : (policy_name, policy_def) ∈ info.masking_policies) :
    ("        ELSE CONCAT(LEFT(val, 1), " ++ pyq ++ "****" ++ pyq ++ ")")
      ∈ masking_sql_parts now info := by
  simp only [masking_sql_parts, List.mem_append]
  refine Or.inr (List.mem_flatMap.mpr ⟨(policy_name, policy_def), h, ?_⟩)
  simp [policy_sql_lines]

theorem exList_wrap_strings (ss : List String) :
    exList wrap_legacy (ss.map Yaml.str)
      = .ok (ss.map fun s => Yaml.map
          [("name", .str (last_dot_segment s)), ("location", .str s)]) := by
  induction ss with
  | nil => rfl
  | cons s ss ih => simp [exList, wrap_legacy, ih, except_ok_bind]

theorem row_fold_neutral (ms : List MetricItem) (acc : Nat)
    (h : ∀ nm t, MetricItem.dict nm t ∈ ms → nm ≠ some "row_count") :
    ms.foldl row_count_step acc = acc := by
  induction ms generalizing acc with
  | nil => rfl
  | cons m ms ih =>
    rw [List.foldl_cons]
    have hstep : row_count_step acc m = acc := by
      cases m with
      | dict nm t =>
        have hne := h nm t (List.mem_cons_self _ _)
        simp [row_count_step, hne]
      | other => rfl
    rw [hstep]
    exact ih _ fun nm t hm => h nm t (List.mem_cons_of_mem _ hm)

/-! ## Concrete contracts used by the counterexamples and witnesses -/

def c1_policy : MaskingPolicy :=
  { authorized_roles := some [], applies_to := some "customer_email",
    description := some "Mask email", behavior := none,
    data_type := some "STRING" }

def c1_info : ContractInfo :=
  { name := "retail-contract", version := "1.0.0", target_database := "DB",
    target_schema := "SCH", target_table := "TBL", columns := [],
    primary_key := "", completeness := [], freshness_max_age := none,
    monitoring_metrics := [], masking_policies := [("EMAIL_MASK", c1_policy)],
    access_roles := some ["ANALYST"] }

def c1_absent_policy : MaskingPolicy :=
  { authorized_roles := none, applies_to := none, description := none,
    behavior := none, data_type := none }

def c2_col_a : Column :=
  { name := "account_balance", type := "number", description := "",
    derivation := "", required := true, pii := false, tags := [],
    masking_policy := none }

def c2_col_pk : Column :=
  { name := "customer_id", type := "string", description := "",
    derivation := "", required := true, pii := false, tags := [],
    masking_policy := none }

def c2_cex_info : ContractInfo :=
  { name := "c2", version := "1", target_database := "D", target_schema := "S",
    target_table := "T", columns := [c2_col_a, c2_col_pk],
    primary_key := "customer_id", completeness := [], freshness_max_age := none,
    monitoring_metrics := [], masking_policies := [], access_roles := none }

def c2_wit_info : ContractInfo :=
  { name := "c2w", version := "1", target_database := "D", target_schema := "S",
    target_table := "T", columns := [], primary_key := "customer_id",
    completeness := [("email", 100)], freshness_max_age := none,
    monitoring_metrics := [], masking_policies := [], access_roles := none }

def c3_constraints : Yaml := .map [("enum", .list [.str "ACTIVE", .str "CLOSED"])]

def c3_doc : Yaml :=
  .map [("metadata", .map [("name", .str "demo")]),
        ("spec", .map
          [("destination", .map [("database", .str "D"), ("schema", .str "S"),
                                 ("table", .str "T")]),
           ("schema", .map [("properties", .map
             [("status", .map [("type", .str "string"),
                               ("constraints", c3_constraints)])])])])]

def c3_raw_column : RawColumn :=
  { name := "status", type := .str "string", description := .str "",
    derivation := .str "", required := .bool false, pii := .bool false,
    tags := .list [], masking_policy := .null }

def c3_status_column : Column :=
  { name := "status", type := "string", description := "", derivation := "",
    required := false, pii := false, tags := [], masking_policy := none }

def c3_info : ContractInfo :=
  { name := "demo", version := "1.0.0", target_database := "D",
    target_schema := "S", target_table := "T", columns := [c3_status_column],
    primary_key := "", completeness := [], freshness_max_age := none,
    monitoring_metrics := [], masking_policies := [], access_roles := none }

def c4_sample_doc : Yaml :=
  .map [("spec", .map [("info", .map [("title", .str "Churn Risk")])])]

def c6_col : Column :=
  { name := "customer_id", type := "string", description := "the key",
    derivation := "", required := false, pii := false, tags := [],
    masking_policy := none }

def c6_info : ContractInfo :=
  { name := "c6", version := "1", target_database := "D", target_schema := "S",
    target_table := "T", columns := [c6_col], primary_key := "customer_id",
    completeness := [], freshness_max_age := none, monitoring_metrics := [],
    masking_policies := [], access_roles := none }

def c7_policy : MaskingPolicy :=
  { authorized_roles := some ["fraud_analyst"], applies_to := some "name",
    description := some "d", behavior := none, data_type := none }

def c7_info : ContractInfo :=
  { name := "c7", version := "2", target_database := "D", target_schema := "S",
    target_table := "T", columns := [], primary_key := "", completeness := [],
    freshness_max_age := none, monitoring_metrics := [],
    masking_policies := [("NAME_MASK", c7_policy)], access_roles := none }

def c10_info : ContractInfo :=
  { name := "c10", version := "1", target_database := "D",
    target_schema := "S", target_table := "T",
    columns := [{ name := "calculated_at", type := "timestamp",
                  description := "", derivation := "", required := false,
                  pii := false, tags := [], masking_policy := none }],
    primary_key := "", completeness := [], freshness_max_age := none,
    monitoring_metrics := [], masking_policies := [], access_roles := none }

/-! ## Claim theorems -/

/-- Claim C1 (counterexample): the claimed non-emptiness precedence fails on
the code.  A policy whose `authorized_roles` key is present with the empty
list, under top-level access roles `["ANALYST"]`, resolves to the empty role
set: the emitted membership check is `IN ()` and `ANALYST` does not occur in
the role clause, contrary to the claim's P3 instance. -/
theorem c1_counterexample :
    get_authorized_roles c1_policy c1_info = []
    ∧ roles_sql_of (get_authorized_roles c1_policy c1_info) = ""
    ∧ ("        WHEN CURRENT_ROLE() IN () THEN val")
        ∈ masking_sql_parts "t0" c1_info
    ∧ py_in "ANALYST"
        (roles_sql_of (get_authorized_roles c1_policy c1_info)) = false := by
  refine ⟨rfl, rfl, ?_, rfl⟩
  decide

/-- Claim C1 (amended): the authorized-role set is resolved by key presence,
not by non-emptiness — the policy's own `authorized_roles` is used whenever
the key is present (even as the empty list, which masks for everyone), and
the top-level `access_control.authorized_roles` (empty when absent) is used
only when the policy's key is absent. -/
theorem c1_roles_resolution_amended :
    (∀ (p : MaskingPolicy) (info : ContractInfo) (rs : List String),
        p.authorized_roles = some rs → get_authorized_roles p info = rs)
    ∧ (∀ (p : MaskingPolicy) (info : ContractInfo),
        p.authorized_roles = none →
          get_authorized_roles p info = info.access_roles.getD []) := by
  constructor
  · intro p info rs h
    simp [get_authorized_roles, h]
  · intro p info h
    simp [get_authorized_roles, h]

/-- Claim C1 (witness): the amended resolution evaluated at concrete
policies — an absent key falls back to the top-level `ANALYST` role, a
present empty list stays empty. -/
theorem c1_witness :
    get_authorized_roles c1_absent_policy c1_info = ["ANALYST"]
    ∧ get_authorized_roles c1_policy c1_info = [] :=
  ⟨(c1_roles_resolution_amended.2 c1_absent_policy c1_info rfl).trans rfl,
   c1_roles_resolution_amended.1 c1_policy c1_info [] rfl⟩

/-- Claim C2 (counterexample): the primary key is not always the first
emitted completeness column.  With two required columns `account_balance` and
`customer_id` (the primary key), the primary key is already present in the
required list, is not moved, and the first emitted column is
`account_balance`. -/
theorem c2_counterexample :
    required_columns c2_cex_info = ["account_balance", "customer_id"]
    ∧ (required_columns c2_cex_info).head? ≠ some c2_cex_info.primary_key := by
  exact ⟨rfl, by decide⟩

/-- Claim C2 (amended): the completeness section emits exactly one
zero-null-count expectation, named `no_null_<column>` lower-cased, per column
in the union of required columns, 100%-completeness columns, and the primary
key; the primary key (when non-empty) is always included and the set is
de-duplicated (given distinct column names); the primary key is the first
emitted column exactly when it was not already collected via
required/completeness — otherwise it keeps its original position. -/
theorem c2_completeness_amended (now : String) (info : ContractInfo)
    (hnames : (info.columns.map Column.name).Nodup)
    (hpk : info.primary_key ≠ "") :
    info.primary_key ∈ required_columns info
    ∧ (∀ c, c ∈ required_columns info ↔
        (∃ col ∈ info.columns, col.required = true ∧ col.name = c)
          ∨ (c, (100 : Int)) ∈ info.completeness
          ∨ c = info.primary_key)
    ∧ (required_columns info).Nodup
    ∧ (∀ c, c ∈ required_columns info → (required_columns info).count c = 1)
    ∧ (info.primary_key ∉ pre_pk_columns info →
        (required_columns info).head? = some info.primary_key)
    ∧ (∀ c, c ∈ required_columns info →
        ("    EXPECTATION " ++ expectation_name c ++ " (VALUE = 0);")
          ∈ dmf_sql_parts now info)
    ∧ (∀ c, expectation_name c = py_lower ("no_null_" ++ c)) :=
  ⟨required_columns_pk_mem info hpk,
   required_columns_mem info hpk,
   required_columns_nodup info hnames,
   fun _ hc => List.count_eq_one_of_mem (required_columns_nodup info hnames) hc,
   required_columns_head info hpk,
   fun c hc => null_count_line_mem now info c hc,
   fun _ => rfl⟩

/-- Claim C2 (witness): the amended statement evaluated at a contract whose
primary key is neither required nor in `completeness`: the key is forced in
and emitted first. -/
theorem c2_witness :
    c2_wit_info.primary_key ∈ required_columns c2_wit_info
    ∧ (required_columns c2_wit_info).head? = some c2_wit_info.primary_key :=
  ⟨(c2_completeness_amended "t0" c2_wit_info (by decide) (by decide)).1,
   (c2_completeness_amended "t0" c2_wit_info (by decide) (by decide)).2.2.2.2.1
     (by decide)⟩

/-- Claim C3 (code evaluated at the failing input): the extractor drops the
raw `constraints` mapping from every column record, so the generator's
`'enum' in str(col.get('constraints', {}))` check always inspects the string
of the empty dict and never fires.  For the contract `c3_doc`, whose only
column has `constraints: {enum: [ACTIVE, CLOSED]}` and no dimension tags, no
dimension column is collected and the cardinality section is omitted, against
the claim that a distinct-count metric is emitted. -/
theorem c3_enum_constraint_dropped :
    extract_contract_info c3_doc = .ok
      { name := .str "demo", version := .str "1.0.0", title := .str "",
        description := .str "", owner := .map [], source_tables := [],
        target_database := .str "D", target_schema := .str "S",
        target_table := .str "T", materialization := .str "table",
        columns := [c3_raw_column], grain := .str "", primary_key := .str "",
        data_quality := .map [], business_rules := .list [],
        masking_policies := .map [], access_control := .map [], sla := .map [] }
    ∧ (∀ col : Column, py_in "enum" (constraints_str col) = false)
    ∧ dimension_columns c3_info = []
    ∧ dmf_cardinality_parts c3_info = [] :=
  ⟨rfl, fun _ => rfl, rfl, rfl⟩

/-- Claim C4 (counterexample): extraction is not total on non-mapping
documents — a YAML document that is a bare string raises (Python
`AttributeError` on `.get`) instead of yielding the all-default model. -/
theorem c4_counterexample :
    extract_contract_info (Yaml.str "hello") = .error () := rfl

/-- Claim C4 (amended): extraction is total on mapping documents whose
present sections are well-shaped (each reached section a mapping, upstream
tables structured-first or all strings), with every missing field taking its
source default; a mapping with neither `metadata` nor `spec` yields the
all-default model; a non-mapping document is an error, not the all-default
model. -/
theorem c4_extraction_amended :
    (∀ doc, wellShaped doc = true → exOk (extract_contract_info doc) = true)
    ∧ extract_contract_info (.map []) = .ok default_contract_info
    ∧ (∀ kvs, List.lookup "metadata" kvs = none →
        List.lookup "spec" kvs = none →
        extract_contract_info (.map kvs) = .ok default_contract_info)
    ∧ (∀ doc, isMapOr doc = false → extract_contract_info doc = .error ()) := by
  refine ⟨wellShaped_extract_ok, extract_defaults [] rfl rfl,
          extract_defaults, ?_⟩
  intro doc h
  cases doc <;> first | rfl | simp [isMapOr] at h

/-- Claim C4 (witness): the amended statement evaluated at a document with
only a partial `spec.info` section (extraction succeeds) and at a mapping
without `metadata`/`spec` keys (all-default model). -/
theorem c4_witness :
    exOk (extract_contract_info c4_sample_doc) = true
    ∧ extract_contract_info (.map [("x", .int 1)]) = .ok default_contract_info :=
  ⟨c4_extraction_amended.1 c4_sample_doc rfl,
   c4_extraction_amended.2.2.1 [("x", .int 1)] rfl rfl⟩

/-- Claim C5: the freshness threshold parses `maxAge` by digit extraction —
`48 hours` gives 172800 and `2 days` gives 86400; in general a text without
`hour` (case-insensitive) gives 86400, a `hour` text without digits gives
86400, a `hour` text with digits `h` gives `h * 3600`, and the generator
applies this to the contract's `max_age`. -/
theorem c5_freshness_parsing :
    max_seconds_of "48 hours" = 172800
    ∧ max_seconds_of "2 days" = 86400
    ∧ (∀ s, py_in "hour" (py_lower s) = false → max_seconds_of s = 86400)
    ∧ (∀ s, py_in "hour" (py_lower s) = true → py_int_digits s = none →
        max_seconds_of s = 86400)
    ∧ (∀ s h, py_in "hour" (py_lower s) = true → py_int_digits s = some h →
        max_seconds_of s = h * 3600)
    ∧ (∀ (info : ContractInfo) (s : String), info.freshness_max_age = some s →
        dmf_max_seconds info = max_seconds_of s) := by
  refine ⟨by decide, by decide, ?_, ?_, ?_, ?_⟩
  · intro s h
    simp [max_seconds_of, h]
  · intro s h1 h2
    simp [max_seconds_of, h1, h2]
  · intro s h h1 h2
    simp [max_seconds_of, h1, h2]
  · intro info s h
    simp [dmf_max_seconds, max_age_of, h]

/-- Claim C5 (witness): the parsing clauses evaluated at concrete inputs —
no hour unit, hour unit without digits, and `3 hours`. -/
theorem c5_witness :
    max_seconds_of "weekly" = 86400
    ∧ max_seconds_of "hourly" = 86400
    ∧ max_seconds_of "3 hours" = 10800 :=
  ⟨c5_freshness_parsing.2.2.1 "weekly" (by decide),
   c5_freshness_parsing.2.2.2.1 "hourly" (by decide) (by decide),
   c5_freshness_parsing.2.2.2.2.1 "3 hours" 3 (by decide) (by decide)⟩

/-- Claim C6: in the generated manifest each column's tests follow the
ordered rule — a column named like the primary key carries `unique` and
`not_null`; otherwise a required column carries exactly `not_null`; otherwise
no tests. -/
theorem c6_test_assignment (info : ContractInfo) (col : Column)
    (h : col ∈ info.columns) :
    ∃ cd ∈ columns_yaml info, cd.name = col.name
      ∧ (col.name = info.primary_key → cd.tests = ["unique", "not_null"])
      ∧ (col.name ≠ info.primary_key → col.required = true →
          cd.tests = ["not_null"])
      ∧ (col.name ≠ info.primary_key → col.required = false →
          cd.tests = []) := by
  refine ⟨column_def info col, List.mem_map_of_mem _ h, rfl, ?_, ?_, ?_⟩
  · intro hpk
    simp [column_def, column_tests_for, hpk]
  · intro hpk hreq
    simp [column_def, column_tests_for, hpk, hreq]
  · intro hpk hreq
    simp [column_def, column_tests_for, hpk, hreq]

/-- Claim C6 (witness): the test-assignment rule evaluated on a concrete
contract whose only column is the (not-required) primary key. -/
theorem c6_witness :
    ∃ cd ∈ columns_yaml c6_info, cd.name = c6_col.name
      ∧ (c6_col.name = c6_info.primary_key → cd.tests = ["unique", "not_null"])
      ∧ (c6_col.name ≠ c6_info.primary_key → c6_col.required = true →
          cd.tests = ["not_null"])
      ∧ (c6_col.name ≠ c6_info.primary_key → c6_col.required = false →
          cd.tests = []) :=
  c6_test_assignment c6_info c6_col (by decide)

/-- Claim C7: every emitted masking policy carries the fixed CASE body — the
membership check over the resolved roles emitted upper-cased and quoted, and
the masked branch `CONCAT(LEFT(val, 1), '****')`; under the body's
denotation an authorized role receives the value unchanged and any other
role receives the first character followed by `****`. -/
theorem c7_policy_body (now : String) (info : ContractInfo)
    (policy_name : String) (policy_def : MaskingPolicy)
    (h : (policy_name, policy_def) ∈ info.masking_policies) :
    ("        WHEN CURRENT_ROLE() IN ("
        ++ roles_sql_of (get_authorized_roles policy_def info) ++ ") THEN val")
      ∈ masking_sql_parts now info
    ∧ ("        ELSE CONCAT(LEFT(val, 1), " ++ pyq ++ "****" ++ pyq ++ ")")
      ∈ masking_sql_parts now info
    ∧ roles_sql_of (get_authorized_roles policy_def info)
        = String.intercalate ", "
            ((get_authorized_roles policy_def info).map
              fun role => pyq ++ py_upper role ++ pyq)
    ∧ (∀ role val : String,
        role ∈ (get_authorized_roles policy_def info).map py_upper →
          mask_case_value ((get_authorized_roles policy_def info).map py_upper)
            role val = val)
    ∧ (∀ role val : String,
        role ∉ (get_authorized_roles policy_def info).map py_upper →
          mask_case_value ((get_authorized_roles policy_def info).map py_upper)
            role val = String.mk (val.data.take 1) ++ "****") := by
  refine ⟨masking_when_line_mem now info policy_name policy_def h,
          masking_else_line_mem now info policy_name policy_def h, rfl, ?_, ?_⟩
  · intro role val hmem
    simp [mask_case_value, hmem]
  · intro role val hmem
    simp [mask_case_value, hmem]

/-- Claim C7 (witness): the body facts evaluated at a concrete single-policy
contract — the WHEN line is emitted and the upper-cased authorized role sees
the unmasked value. -/
theorem c7_witness :
    ("        WHEN CURRENT_ROLE() IN ("
        ++ roles_sql_of (get_authorized_roles c7_policy c7_info) ++ ") THEN val")
      ∈ masking_sql_parts "t0" c7_info
    ∧ mask_case_value ((get_authorized_roles c7_policy c7_info).map py_upper)
        "FRAUD_ANALYST" "Alice" = "Alice" := by
  obtain ⟨h1, _, _, h4, _⟩ :=
    c7_policy_body "t0" c7_info "NAME_MASK" c7_policy (by decide)
  exact ⟨h1, h4 "FRAUD_ANALYST" "Alice" (by decide)⟩

/-- Claim C8: upstream-table normalization — a list with a structured first
element passes every element through as-is; a list of legacy strings wraps
each string as `{name: last dot segment, location: original}`; in particular
`["DB.RAW.CUSTOMERS"]` normalizes to
`{name: "CUSTOMERS", location: "DB.RAW.CUSTOMERS"}`. -/
theorem c8_upstream_normalization :
    (∀ m ts, normalize_upstream (.list (.map m :: ts)) = .ok (.map m :: ts))
    ∧ (∀ ss : List String,
        normalize_upstream (.list (ss.map Yaml.str))
          = .ok (ss.map fun s => Yaml.map
              [("name", .str (last_dot_segment s)), ("location", .str s)]))
    ∧ normalize_upstream (.list [.str "DB.RAW.CUSTOMERS"])
        = .ok [.map [("name", .str "CUSTOMERS"),
                     ("location", .str "DB.RAW.CUSTOMERS")]] := by
  refine ⟨fun m ts => rfl, fun ss => ?_, rfl⟩
  cases ss with
  | nil => rfl
  | cons s ss => exact exList_wrap_strings (s :: ss)

/-- Claim C9: the row-count rule is always emitted; the threshold is 500
unless a mapping metric named `row_count` is present, whose threshold digits
override it; a digit-extraction failure silently keeps the previous value. -/
theorem c9_row_threshold :
    (∀ ms : List MetricItem,
        (∀ nm t, MetricItem.dict nm t ∈ ms → nm ≠ some "row_count") →
        row_threshold_of ms = 500)
    ∧ (∀ t n, py_int_digits t = some n →
        row_threshold_of [.dict (some "row_count") (some t)] = n)
    ∧ (∀ t, py_int_digits t = none →
        row_threshold_of [.dict (some "row_count") (some t)] = 500)
    ∧ (∀ now info, ("    EXPECTATION min_row_count (VALUE >= "
          ++ toString (row_threshold_of info.monitoring_metrics) ++ ");")
        ∈ dmf_sql_parts now info) := by
  refine ⟨fun ms h => row_fold_neutral ms 500 h, ?_, ?_, rowcount_line_mem⟩
  · intro t n h
    simp [row_threshold_of, row_count_step, h]
  · intro t h
    simp [row_threshold_of, row_count_step, h]

/-- Claim C9 (witness): threshold clauses evaluated concretely — no metrics,
an override with digits, and a digit-free override retaining 500. -/
theorem c9_witness :
    row_threshold_of [] = 500
    ∧ row_threshold_of [.dict (some "row_count") (some "at least 1000 rows")]
        = 1000
    ∧ row_threshold_of [.dict (some "row_count") (some "no digits")] = 500 :=
  ⟨c9_row_threshold.1 [] (by intro nm t h; simp at h),
   c9_row_threshold.2.1 "at least 1000 rows" 1000 (by decide),
   c9_row_threshold.2.2.1 "no digits" (by decide)⟩

/-- Claim C10: a contract without `freshness.max_age` does not fall back to
the 86400 parse-failure default — the missing value is replaced by the
literal `25 hours` before parsing, giving a threshold of 90000 seconds, and
with a freshness-eligible column the emitted expectation carries 90000. -/
theorem c10_missing_max_age (info : ContractInfo) (now : String)
    (h : info.freshness_max_age = none) (hts : timestamp_cols info ≠ []) :
    max_age_of info = "25 hours"
    ∧ dmf_max_seconds info = 90000
    ∧ (90000 : Nat) ≠ 86400
    ∧ ("    EXPECTATION freshness_sla (VALUE <= "
        ++ toString (dmf_max_seconds info) ++ ");") ∈ dmf_sql_parts now info := by
  have h1 : max_age_of info = "25 hours" := by simp [max_age_of, h]
  refine ⟨h1, ?_, by decide, freshness_line_mem now info hts⟩
  simp only [dmf_max_seconds, h1]
  decide

/-- Claim C10 (witness): a contract with a `calculated_at` timestamp column
and no `max_age` gets the 90000-second threshold. -/
theorem c10_witness :
    dmf_max_seconds c10_info = 90000 :=
  (c10_missing_max_age c10_info "t0" rfl (by decide)).2.1
